import Mathlib

/-!
Verification of the `interviewiq-backend` Answer Processor
(`src/process_answer.py`) against its specification.

The script is a single linear `try/except` sequence.  We embed it as a
pure function `ProcessAnswer.run` over an explicit environment `Env`
that records the command-line arguments and the outcomes of the external
effects (temporary-file creation, the media-conversion subprocess, the
transcription library, the clock reads, and the final file removal).
Python string operations used by the script (`str.split()`, `str.strip()`,
`str.lower()`, `str.find`, `" ".join`, `os.path.splitext`) are embedded
character-for-character, and `round(x, 2)` is embedded as round-half-even
at two decimal places over the rationals.
-/

namespace ProcessAnswer

/-- Python whitespace for `str.split()` / `str.strip()` (ASCII range). -/
def pyIsSpace (c : Char) : Bool :=
  c = ' ' || c = '\t' || c = '\n' || c = '\r' || c = '\x0b' || c = '\x0c'

/-- Worker for `str.split()` with no separator: split on runs of
whitespace, discarding empty pieces.  `acc` holds the current word,
reversed. -/
def pySplitAux : List Char → List Char → List String
  | [], [] => []
  | [], acc => [String.mk acc.reverse]
  | c :: t, acc =>
    if pyIsSpace c then
      match acc with
      | [] => pySplitAux t []
      | _ => String.mk acc.reverse :: pySplitAux t []
    else pySplitAux t (c :: acc)

/-- Python `s.split()` (no separator argument). -/
def pySplit (s : String) : List String :=
  pySplitAux s.data []

/-- Python `s.strip()`: drop leading and trailing whitespace. -/
def pyStrip (s : String) : String :=
  String.mk (((s.data.dropWhile pyIsSpace).reverse.dropWhile pyIsSpace).reverse)

/-- ASCII lower-casing of one character, as Python `str.lower()` does on
the ASCII range. -/
def lowerChar (c : Char) : Char :=
  if 'A' ≤ c && c ≤ 'Z' then Char.ofNat (c.toNat + 32) else c

/-- Python `s.lower()` (ASCII range). -/
def pyLower (s : String) : String :=
  String.mk (s.data.map lowerChar)

/-- Does the second list start with the first one? -/
def listStarts : List Char → List Char → Bool
  | [], _ => true
  | _ :: _, [] => false
  | a :: s, b :: t => a = b && listStarts s t

/-- Does `l` contain `sub` as a contiguous run? -/
def containsSub (sub : List Char) : List Char → Bool
  | [] => listStarts sub []
  | c :: t => listStarts sub (c :: t) || containsSub sub t

/-- Python `s.find(sub) != -1`: substring containment. -/
def pyContains (s sub : String) : Bool :=
  containsSub sub.data s.data

/-- Python `" ".join(l)`. -/
def joinSpace : List String → String
  | [] => ""
  | [s] => s
  | s :: t => s ++ " " ++ joinSpace t

/-- Index of the last occurrence of `c` in `l`, if any. -/
def rfindAux (c : Char) : List Char → Option Nat
  | [] => none
  | a :: t =>
    match rfindAux c t with
    | some i => some (i + 1)
    | none => if a = c then some 0 else none

/-- `os.path.splitext` (POSIX): split off the extension at the last dot
of the base name, treating leading dots of the base name as part of the
name.  Follows CPython `genericpath._splitext` with `sep = '/'` and
`extsep = '.'`. -/
def splitext (p : String) : String × String :=
  let l := p.data
  let sepIdx : Int := match rfindAux '/' l with | some i => (i : Int) | none => -1
  let dotIdx : Int := match rfindAux '.' l with | some i => (i : Int) | none => -1
  if sepIdx < dotIdx then
    let lo := (sepIdx + 1).toNat
    let hi := dotIdx.toNat
    if ((l.drop lo).take (hi - lo)).any (fun ch => ch ≠ '.') then
      (String.mk (l.take hi), String.mk (l.drop hi))
    else (p, "")
  else (p, "")

/-- Round a rational to the nearest integer, ties to even — the rounding
Python's `round` performs. -/
def rhe (q : ℚ) : ℤ :=
  if q - (⌊q⌋ : ℚ) < 1/2 then ⌊q⌋
  else if (1 : ℚ)/2 < q - (⌊q⌋ : ℚ) then ⌊q⌋ + 1
  else if ⌊q⌋ % 2 = 0 then ⌊q⌋ else ⌊q⌋ + 1

/-- Python `round(x, 2)`, modelled over the rationals. -/
def pyRound2 (q : ℚ) : ℚ :=
  ((rhe (q * 100) : ℤ) : ℚ) / 100

/-- Extensions that trigger conversion (`process_answer.py`, line 23). -/
def convertExts : List String :=
  [".webm", ".ogg", ".m4a", ".mp3", ".opus"]

/-- `input_ext = os.path.splitext(audio_path)[1].lower()` followed by the
membership test of line 23. -/
def needsConversion (audio_path : String) : Bool :=
  convertExts.contains (pyLower (splitext audio_path).2)

/-- The argument vector passed to `subprocess.run` (lines 28–30). -/
def ffmpegArgs (inp outp : String) : List String :=
  ["ffmpeg", "-y", "-i", inp, "-ac", "1", "-ar", "16000", outp]

/-- Feedback heuristic of lines 59–68: a default, overridden by the
first matching branch of the `if/elif` chain. -/
def feedbackOf (word_count : Nat) (transcript : String) : String :=
  if word_count < 10 then
    "Try to provide more detailed answers with specific examples."
  else if word_count > 100 then
    "Good detailed response! Try to be more concise while keeping key points."
  else if pyContains (pyLower transcript) "experience"
      || pyContains (pyLower transcript) "project" then
    "Great job mentioning specific experience! This adds credibility to your answer."
  else
    "Good response! Keep practicing to improve your interview skills."

/-- Error-message mapping of lines 88–98. -/
def mapErrorMsg (m : String) : String :=
  if pyContains m "No module named" then "Missing dependency: " ++ m
  else if pyContains m "FFmpeg" then "FFmpeg not found. Please install FFmpeg."
  else if pyContains m "No such file" then "Audio file not found or corrupted."
  else if pyContains (pyLower m) "timeout" then "Processing timeout. Try a shorter recording."
  else "Audio processing error: " ++ m

/-- A JSON object printed to standard output: either the success object of
lines 71–77 or the error object of lines 100–106. -/
inductive JsonOut where
  | success (transcript feedback : String) (processing_time : ℚ) (word_count : Nat)
  | failure (transcript feedback error : String) (processing_time : ℚ) (word_count : Nat)
deriving DecidableEq

/-- Environment of one invocation: the arguments and the outcomes of every
external effect the script performs. -/
structure Env where
  /-- `sys.argv`, including the script name at position 0. -/
  argv : List String
  /-- Path returned by `tempfile.mkstemp(suffix=".wav")` when called. -/
  tempPath : String
  /-- Whether the `ffmpeg` executable is on the PATH (else
  `subprocess.run` raises `FileNotFoundError`). -/
  ffmpegFound : Bool
  /-- Whether `ffmpeg` exits with status 0 (else `CalledProcessError`). -/
  ffmpegExitZero : Bool
  /-- `str(e)` of the `CalledProcessError`, interpolated at line 36. -/
  ffmpegErrDetail : String
  /-- Outcome of loading the model and transcribing: the segment texts,
  or the message of the exception raised. -/
  transcription : Except String (List String)
  /-- `time.time()` at line 40 (`start_time`). -/
  t0 : ℚ
  /-- `time.time()` at line 56, after transcription. -/
  t1 : ℚ
  /-- Whether `os.remove(temp_wav_path)` succeeds (else the exception is
  swallowed at lines 81–84). -/
  removeOk : Bool

/-- Observable outcome of one invocation. -/
structure RunResult where
  /-- The JSON objects printed to standard output, in order. -/
  stdout : List JsonOut
  /-- Process exit status. -/
  exitCode : Nat
  /-- Whether `tempfile.mkstemp` was called (a temporary file created). -/
  tempWavCreated : Bool
  /-- Whether that temporary file still exists when the process exits. -/
  tempWavExistsAtExit : Bool
  /-- The `subprocess.run` argument vector, when conversion was attempted. -/
  ffmpegCmd : Option (List String)
  /-- The path handed to `model.transcribe`, when reached. -/
  audioPathUsed : Option String
deriving DecidableEq

/-- The except-block of lines 86–109: print the error JSON and exit 1.
No cleanup of the temporary file happens here, so it exists at exit
exactly when it was created. -/
def errorResult (m : String) (created : Bool) (cmd : Option (List String))
    (used : Option String) : RunResult :=
  { stdout := [.failure "" "Error processing audio. Please try again." (mapErrorMsg m) 0 0],
    exitCode := 1
    tempWavCreated := created
    tempWavExistsAtExit := created
    ffmpegCmd := cmd
    audioPathUsed := used }

/-- Lines 53–84: build the transcript, feedback and output object, print
it, then best-effort-remove the temporary file and exit 0. -/
def successResult (env : Env) (path : String) (created : Bool)
    (cmd : Option (List String)) (segs : List String) : RunResult :=
  let transcript := pyStrip (joinSpace segs)
  let word_count := (pySplit transcript).length
  { stdout := [.success transcript (feedbackOf word_count transcript)
      (pyRound2 (env.t1 - env.t0)) word_count]
    exitCode := 0
    tempWavCreated := created
    tempWavExistsAtExit := created && !env.removeOk
    ffmpegCmd := cmd
    audioPathUsed := some path }

/-- The transcription step and everything after it (lines 38–84), with the
top-level handler applied to a raised exception. -/
def afterConversion (env : Env) (path : String) (created : Bool)
    (cmd : Option (List String)) : RunResult :=
  match env.transcription with
  | .error m => errorResult m created cmd (some path)
  | .ok segs => successResult env path created cmd segs

/-- Lines 20–84 once both arguments were read: the conversion block, then
the rest of the pipeline. -/
def runMain (env : Env) (audio_path : String) : RunResult :=
  if needsConversion audio_path then
    if env.ffmpegFound then
      if env.ffmpegExitZero then
        afterConversion env env.tempPath true (some (ffmpegArgs audio_path env.tempPath))
      else
        errorResult ("FFmpeg failed to convert audio: " ++ env.ffmpegErrDetail)
          true (some (ffmpegArgs audio_path env.tempPath)) none
    else
      errorResult "FFmpeg not found. Please install FFmpeg and ensure it is in your PATH."
        true (some (ffmpegArgs audio_path env.tempPath)) none
  else
    afterConversion env audio_path false none

/-- The whole script: read `sys.argv[1]` and `sys.argv[2]` (an
`IndexError` lands in the top-level handler), then run the pipeline. -/
def run (env : Env) : RunResult :=
  match env.argv[1]?, env.argv[2]? with
  | some audio_path, some _question => runMain env audio_path
  | _, _ => errorResult "list index out of range" false none none

/-- Is a printed JSON object the success object? -/
def isSuccessJson : JsonOut → Bool
  | .success _ _ _ _ => true
  | .failure _ _ _ _ _ => false

/-- A successful run: a `.wav` input (no conversion), two segments. -/
def envOk : Env :=
  { argv := ["process_answer.py", "answer.wav", "Tell me about yourself"]
    tempPath := "/tmp/tmpa1.wav"
    ffmpegFound := true
    ffmpegExitZero := true
    ffmpegErrDetail := ""
    transcription := .ok ["hello", "world"]
    t0 := 0
    t1 := 0
    removeOk := true }

/-- A failing run after a successful conversion: a `.webm` input is
converted, then the transcription step raises. -/
def envLeak : Env :=
  { argv := ["process_answer.py", "answer.webm", "Tell me about yourself"]
    tempPath := "/tmp/tmpb2.wav"
    ffmpegFound := true
    ffmpegExitZero := true
    ffmpegErrDetail := ""
    transcription := .error "Connection error while downloading the model"
    t0 := 0
    t1 := 0
    removeOk := true }

/-- An invocation with no positional arguments at all. -/
def envNoArgs : Env :=
  { argv := ["process_answer.py"]
    tempPath := "/tmp/tmpc3.wav"
    ffmpegFound := true
    ffmpegExitZero := true
    ffmpegErrDetail := ""
    transcription := .ok []
    t0 := 0
    t1 := 0
    removeOk := true }

/- ### Helper lemmas about the embedding -/

theorem errorResult_stdout (m : String) (c : Bool) (cmd : Option (List String))
    (u : Option String) :
    (errorResult m c cmd u).stdout =
      [.failure "" "Error processing audio. Please try again." (mapErrorMsg m) 0 0] := rfl

theorem errorResult_exitCode (m : String) (c : Bool) (cmd : Option (List String))
    (u : Option String) : (errorResult m c cmd u).exitCode = 1 := rfl

theorem successResult_stdout (env : Env) (p : String) (c : Bool)
    (cmd : Option (List String)) (segs : List String) :
    (successResult env p c cmd segs).stdout =
      [.success (pyStrip (joinSpace segs))
        (feedbackOf (pySplit (pyStrip (joinSpace segs))).length (pyStrip (joinSpace segs)))
        (pyRound2 (env.t1 - env.t0))
        (pySplit (pyStrip (joinSpace segs))).length] := rfl

theorem successResult_exitCode (env : Env) (p : String) (c : Bool)
    (cmd : Option (List String)) (segs : List String) :
    (successResult env p c cmd segs).exitCode = 0 := rfl

theorem run_arg_some (env : Env) (a q : String)
    (h1 : env.argv[1]? = some a) (h2 : env.argv[2]? = some q) :
    run env = runMain env a := by
  unfold run
  rw [h1, h2]

theorem run_arg_none (env : Env) (h : env.argv.length < 3) :
    run env = errorResult "list index out of range" false none none := by
  have h2 : env.argv[2]? = none := List.getElem?_eq_none (by omega)
  unfold run
  rw [h2]
  cases h1 : env.argv[1]? <;> rfl

theorem afterConversion_ok (env : Env) (path : String) (c : Bool)
    (cmd : Option (List String)) (segs : List String)
    (h : env.transcription = Except.ok segs) :
    afterConversion env path c cmd = successResult env path c cmd segs := by
  unfold afterConversion
  rw [h]

theorem afterConversion_err (env : Env) (path : String) (c : Bool)
    (cmd : Option (List String)) (m : String)
    (h : env.transcription = Except.error m) :
    afterConversion env path c cmd = errorResult m c cmd (some path) := by
  unfold afterConversion
  rw [h]

theorem runMain_noconv (env : Env) (a : String) (hc : needsConversion a = false) :
    runMain env a = afterConversion env a false none := by
  unfold runMain
  rw [hc]
  simp

theorem runMain_conv_ok (env : Env) (a : String) (hc : needsConversion a = true)
    (hf : env.ffmpegFound = true) (hz : env.ffmpegExitZero = true) :
    runMain env a = afterConversion env env.tempPath true (some (ffmpegArgs a env.tempPath)) := by
  unfold runMain
  rw [hc, hf, hz]
  simp

theorem runMain_conv_notfound (env : Env) (a : String) (hc : needsConversion a = true)
    (hf : env.ffmpegFound = false) :
    runMain env a = errorResult
      "FFmpeg not found. Please install FFmpeg and ensure it is in your PATH."
      true (some (ffmpegArgs a env.tempPath)) none := by
  unfold runMain
  rw [hc, hf]
  simp

theorem runMain_conv_fail (env : Env) (a : String) (hc : needsConversion a = true)
    (hf : env.ffmpegFound = true) (hz : env.ffmpegExitZero = false) :
    runMain env a = errorResult ("FFmpeg failed to convert audio: " ++ env.ffmpegErrDetail)
      true (some (ffmpegArgs a env.tempPath)) none := by
  unfold runMain
  rw [hc, hf, hz]
  simp

/-- Every run is an `errorResult` or a `successResult`. -/
theorem run_shape (env : Env) :
    (∃ m c cmd u, run env = errorResult m c cmd u) ∨
    (∃ p c cmd segs, env.transcription = Except.ok segs ∧
      run env = successResult env p c cmd segs) := by
  cases h1 : env.argv[1]? with
  | none =>
    have : env.argv.length < 3 := by
      have := List.getElem?_eq_none_iff.mp h1
      omega
    exact Or.inl ⟨_, _, _, _, run_arg_none env this⟩
  | some a =>
    cases h2 : env.argv[2]? with
    | none =>
      have : env.argv.length < 3 := by
        have := List.getElem?_eq_none_iff.mp h2
        omega
      exact Or.inl ⟨_, _, _, _, run_arg_none env this⟩
    | some q =>
      rw [run_arg_some env a q h1 h2]
      cases ht : env.transcription with
      | error m =>
        cases hc : needsConversion a with
        | false =>
          exact Or.inl ⟨m, _, _, _, by
            rw [runMain_noconv env a hc, afterConversion_err env a false none m ht]⟩
        | true =>
          cases hf : env.ffmpegFound with
          | false => exact Or.inl ⟨_, _, _, _, runMain_conv_notfound env a hc hf⟩
          | true =>
            cases hz : env.ffmpegExitZero with
            | false => exact Or.inl ⟨_, _, _, _, runMain_conv_fail env a hc hf hz⟩
            | true =>
              exact Or.inl ⟨m, _, _, _, by
                rw [runMain_conv_ok env a hc hf hz,
                  afterConversion_err env env.tempPath true _ m ht]⟩
      | ok segs =>
        cases hc : needsConversion a with
        | false =>
          exact Or.inr ⟨a, false, none, segs, rfl, by
            rw [runMain_noconv env a hc, afterConversion_ok env a false none segs ht]⟩
        | true =>
          cases hf : env.ffmpegFound with
          | false => exact Or.inl ⟨_, _, _, _, runMain_conv_notfound env a hc hf⟩
          | true =>
            cases hz : env.ffmpegExitZero with
            | false => exact Or.inl ⟨_, _, _, _, runMain_conv_fail env a hc hf hz⟩
            | true =>
              exact Or.inr ⟨env.tempPath, true, _, segs, rfl, by
                rw [runMain_conv_ok env a hc hf hz,
                  afterConversion_ok env env.tempPath true _ segs ht]⟩

theorem rhe_nonneg (q : ℚ) (h : 0 ≤ q) : 0 ≤ rhe q := by
  have hf : (0 : ℤ) ≤ ⌊q⌋ := Int.floor_nonneg.mpr h
  unfold rhe
  split
  · exact hf
  · split
    · omega
    · split
      · exact hf
      · omega

theorem pyRound2_nonneg (q : ℚ) (h : 0 ≤ q) : 0 ≤ pyRound2 q := by
  unfold pyRound2
  have h1 : (0 : ℤ) ≤ rhe (q * 100) := rhe_nonneg _ (by positivity)
  have h2 : (0 : ℚ) ≤ ((rhe (q * 100) : ℤ) : ℚ) := by exact_mod_cast h1
  exact div_nonneg h2 (by norm_num)

/- ### Claims -/

/-- C1: the feedback string is chosen by a fixed priority order in which
exactly one branch fires: word count below 10 gives the more-detail
message; else above 100 the be-more-concise message; else a
case-insensitive occurrence of "experience" or "project" gives the
specific-experience message; otherwise the generic encouragement. -/
theorem C1_feedback_priority (t : String) :
    ((pySplit t).length < 10 →
      feedbackOf (pySplit t).length t =
        "Try to provide more detailed answers with specific examples.") ∧
    (100 < (pySplit t).length →
      feedbackOf (pySplit t).length t =
        "Good detailed response! Try to be more concise while keeping key points.") ∧
    (10 ≤ (pySplit t).length → (pySplit t).length ≤ 100 →
      (pyContains (pyLower t) "experience" || pyContains (pyLower t) "project") = true →
      feedbackOf (pySplit t).length t =
        "Great job mentioning specific experience! This adds credibility to your answer.") ∧
    (10 ≤ (pySplit t).length → (pySplit t).length ≤ 100 →
      (pyContains (pyLower t) "experience" || pyContains (pyLower t) "project") = false →
      feedbackOf (pySplit t).length t =
        "Good response! Keep practicing to improve your interview skills.") := by
  refine ⟨?_, ?_, ?_, ?_⟩
  · intro h1
    unfold feedbackOf
    rw [if_pos h1]
  · intro h1
    unfold feedbackOf
    rw [if_neg (by omega), if_pos h1]
  · intro h1 h2 h3
    unfold feedbackOf
    rw [if_neg (by omega), if_neg (by omega), if_pos h3]
  · intro h1 h2 h3
    unfold feedbackOf
    rw [if_neg (by omega), if_neg (by omega), if_neg (by simp [h3])]

/-- C1 witness: a 13-word transcript mentioning a project receives the
specific-experience message. -/
theorem C1_feedback_priority_witness :
    feedbackOf
      (pySplit "I led a big project at work recently and loved every part of it").length
      "I led a big project at work recently and loved every part of it" =
    "Great job mentioning specific experience! This adds credibility to your answer." :=
  (C1_feedback_priority
      "I led a big project at work recently and loved every part of it").2.2.1
    (by decide) (by decide) (by decide)

/-- C2 counterexample: on a failure path after the temporary converted
file was created (conversion succeeded, then transcription raised), the
temporary file still exists when the process exits — the except-block of
lines 86–109 performs no cleanup. -/
theorem C2_counterexample :
    (run envLeak).tempWavCreated = true ∧
    (run envLeak).exitCode ≠ 0 ∧
    (run envLeak).tempWavExistsAtExit = true :=
  ⟨rfl, by decide, rfl⟩

/-- C2 (amended): the temporary converted file is removed only on the
success path, and there only when the removal call succeeds (cleanup
failures are ignored); on every failure path it still exists at process
exit whenever it was created. -/
theorem C2_amended_cleanup (env : Env) :
    ((run env).exitCode = 0 →
      (run env).tempWavExistsAtExit = ((run env).tempWavCreated && !env.removeOk)) ∧
    ((run env).exitCode ≠ 0 →
      (run env).tempWavExistsAtExit = (run env).tempWavCreated) := by
  rcases run_shape env with ⟨m, c, cmd, u, h⟩ | ⟨p, c, cmd, segs, hseg, h⟩ <;> rw [h]
  · exact ⟨fun h0 => absurd h0 Nat.one_ne_zero, fun _ => rfl⟩
  · exact ⟨fun _ => rfl, fun hne => absurd rfl hne⟩

/-- C2 amended witness: on the failure run `envLeak` the temporary file
exists at exit exactly because it was created. -/
theorem C2_amended_cleanup_witness :
    (run envLeak).tempWavExistsAtExit = (run envLeak).tempWavCreated :=
  (C2_amended_cleanup envLeak).2 (by decide)

/-- C3: every invocation exits 0 or 1; a failing one exits 1 and prints
exactly the fixed-shape error object (empty transcript, fixed feedback
text, zero time and word count); a successful one exits 0 and prints the
transcription object. -/
theorem C3_exit_and_shape (env : Env) :
    ((run env).exitCode = 0 ∨ (run env).exitCode = 1) ∧
    ((run env).exitCode ≠ 0 →
      (run env).exitCode = 1 ∧ ∃ m,
        (run env).stdout =
          [JsonOut.failure "" "Error processing audio. Please try again." m 0 0]) ∧
    ((run env).exitCode = 0 →
      ∃ t f p w, (run env).stdout = [JsonOut.success t f p w]) := by
  rcases run_shape env with ⟨m, c, cmd, u, h⟩ | ⟨p, c, cmd, segs, hseg, h⟩ <;> rw [h]
  · exact ⟨Or.inr rfl, fun _ => ⟨rfl, mapErrorMsg m, rfl⟩, fun h0 => absurd h0 Nat.one_ne_zero⟩
  · exact ⟨Or.inl rfl, fun hne => absurd rfl hne, fun _ => ⟨_, _, _, _, rfl⟩⟩

/-- C3 witness: the successful run `envOk` exits 0 and prints a success
object. -/
theorem C3_exit_and_shape_witness :
    ∃ t f p w, (run envOk).stdout = [JsonOut.success t f p w] :=
  (C3_exit_and_shape envOk).2.2 rfl

/-- C4: exactly one result JSON object is printed per invocation, and no
invocation prints both the success and the error object. -/
theorem C4_exactly_one_json (env : Env) :
    (run env).stdout.length = 1 ∧
    ¬ ((∃ x ∈ (run env).stdout, isSuccessJson x = true) ∧
       (∃ y ∈ (run env).stdout, isSuccessJson y = false)) := by
  rcases run_shape env with ⟨m, c, cmd, u, h⟩ | ⟨p, c, cmd, segs, hseg, h⟩ <;> rw [h]
  · refine ⟨rfl, ?_⟩
    rintro ⟨⟨x, hx, hxT⟩, -⟩
    rw [errorResult_stdout, List.mem_singleton] at hx
    subst hx
    simp [isSuccessJson] at hxT
  · refine ⟨rfl, ?_⟩
    rintro ⟨-, y, hy, hyF⟩
    rw [successResult_stdout, List.mem_singleton] at hy
    subst hy
    simp [isSuccessJson] at hyF

/-- C4 witness: instantiation at the concrete successful run. -/
theorem C4_exactly_one_json_witness : (run envOk).stdout.length = 1 :=
  (C4_exactly_one_json envOk).1

/-- C5: conversion happens exactly when the lower-cased extension is in
the compressed/container list, invoking the conversion tool with the
mono 16 kHz WAV argument vector; the converted path replaces the input,
otherwise the original path is used unchanged; a missing tool or a
non-zero tool exit raises a descriptive error that aborts processing. -/
theorem C5_conversion (env : Env) (a q : String)
    (h1 : env.argv[1]? = some a) (h2 : env.argv[2]? = some q) :
    (needsConversion a = convertExts.contains (pyLower (splitext a).2)) ∧
    ((run env).ffmpegCmd =
      if needsConversion a then some (ffmpegArgs a env.tempPath) else none) ∧
    (needsConversion a = false → (run env).audioPathUsed = some a) ∧
    (needsConversion a = true → env.ffmpegFound = true → env.ffmpegExitZero = true →
      (run env).audioPathUsed = some env.tempPath) ∧
    (needsConversion a = true → env.ffmpegFound = false →
      run env = errorResult
        "FFmpeg not found. Please install FFmpeg and ensure it is in your PATH."
        true (some (ffmpegArgs a env.tempPath)) none) ∧
    (needsConversion a = true → env.ffmpegFound = true → env.ffmpegExitZero = false →
      run env = errorResult ("FFmpeg failed to convert audio: " ++ env.ffmpegErrDetail)
        true (some (ffmpegArgs a env.tempPath)) none) := by
  rw [run_arg_some env a q h1 h2]
  refine ⟨rfl, ?_, ?_, ?_, ?_, ?_⟩
  · cases hc : needsConversion a with
    | false =>
      rw [if_neg (by simp [hc]), runMain_noconv env a hc]
      unfold afterConversion
      cases env.transcription <;> rfl
    | true =>
      rw [if_pos (by simp [hc])]
      cases hf : env.ffmpegFound with
      | false =>
        rw [runMain_conv_notfound env a hc hf]
        rfl
      | true =>
        cases hz : env.ffmpegExitZero with
        | false =>
          rw [runMain_conv_fail env a hc hf hz]
          rfl
        | true =>
          rw [runMain_conv_ok env a hc hf hz]
          unfold afterConversion
          cases env.transcription <;> rfl
  · intro hc
    rw [runMain_noconv env a hc]
    unfold afterConversion
    cases env.transcription <;> rfl
  · intro hc hf hz
    rw [runMain_conv_ok env a hc hf hz]
    unfold afterConversion
    cases env.transcription <;> rfl
  · intro hc hf
    exact runMain_conv_notfound env a hc hf
  · intro hc hf hz
    exact runMain_conv_fail env a hc hf hz

/-- C5 witness: the `.webm` run converts and hands the temporary path to
the transcriber. -/
theorem C5_conversion_witness :
    (run envLeak).audioPathUsed = some envLeak.tempPath :=
  (C5_conversion envLeak "answer.webm" "Tell me about yourself" rfl rfl).2.2.2.1
    (by decide) rfl rfl

/-- C6: on a successful run the printed transcript is the segment texts
joined by single spaces and stripped of surrounding whitespace, and the
printed word count is the number of whitespace-separated words of that
transcript. -/
theorem C6_transcript_wordcount (env : Env) (a q : String) (segs : List String)
    (h1 : env.argv[1]? = some a) (h2 : env.argv[2]? = some q)
    (h3 : env.transcription = Except.ok segs)
    (h4 : needsConversion a = true → env.ffmpegFound = true ∧ env.ffmpegExitZero = true) :
    (run env).stdout =
      [JsonOut.success (pyStrip (joinSpace segs))
        (feedbackOf (pySplit (pyStrip (joinSpace segs))).length (pyStrip (joinSpace segs)))
        (pyRound2 (env.t1 - env.t0))
        (pySplit (pyStrip (joinSpace segs))).length] := by
  rw [run_arg_some env a q h1 h2]
  cases hc : needsConversion a with
  | false =>
    rw [runMain_noconv env a hc, afterConversion_ok env a false none segs h3]
    exact successResult_stdout env a false none segs
  | true =>
    obtain ⟨hf, hz⟩ := h4 hc
    rw [runMain_conv_ok env a hc hf hz,
      afterConversion_ok env env.tempPath true _ segs h3]
    exact successResult_stdout env env.tempPath true _ segs

/-- C6 witness: the two segments of `envOk` produce the transcript
"hello world" with word count 2. -/
theorem C6_transcript_wordcount_witness :
    (run envOk).stdout =
      [JsonOut.success (pyStrip (joinSpace ["hello", "world"]))
        (feedbackOf (pySplit (pyStrip (joinSpace ["hello", "world"]))).length
          (pyStrip (joinSpace ["hello", "world"])))
        (pyRound2 (envOk.t1 - envOk.t0))
        (pySplit (pyStrip (joinSpace ["hello", "world"]))).length] :=
  C6_transcript_wordcount envOk "answer.wav" "Tell me about yourself" ["hello", "world"]
    rfl rfl rfl (by decide)

/-- C7: the user-facing error message is produced by matching the raised
message against fixed substrings in order — missing dependency, FFmpeg,
missing file, timeout (case-insensitive), then the generic label — and
every failing run prints the mapped message in the error JSON. -/
theorem C7_error_mapping (m : String) (env : Env) :
    (pyContains m "No module named" = true →
      mapErrorMsg m = "Missing dependency: " ++ m) ∧
    (pyContains m "No module named" = false → pyContains m "FFmpeg" = true →
      mapErrorMsg m = "FFmpeg not found. Please install FFmpeg.") ∧
    (pyContains m "No module named" = false → pyContains m "FFmpeg" = false →
      pyContains m "No such file" = true →
      mapErrorMsg m = "Audio file not found or corrupted.") ∧
    (pyContains m "No module named" = false → pyContains m "FFmpeg" = false →
      pyContains m "No such file" = false → pyContains (pyLower m) "timeout" = true →
      mapErrorMsg m = "Processing timeout. Try a shorter recording.") ∧
    (pyContains m "No module named" = false → pyContains m "FFmpeg" = false →
      pyContains m "No such file" = false → pyContains (pyLower m) "timeout" = false →
      mapErrorMsg m = "Audio processing error: " ++ m) ∧
    ((run env).exitCode ≠ 0 → ∃ e,
      (run env).stdout =
        [JsonOut.failure "" "Error processing audio. Please try again." (mapErrorMsg e) 0 0]) := by
  refine ⟨?_, ?_, ?_, ?_, ?_, ?_⟩
  · intro h1
    unfold mapErrorMsg
    rw [if_pos h1]
  · intro h1 h2
    unfold mapErrorMsg
    rw [if_neg (by simp [h1]), if_pos h2]
  · intro h1 h2 h3
    unfold mapErrorMsg
    rw [if_neg (by simp [h1]), if_neg (by simp [h2]), if_pos h3]
  · intro h1 h2 h3 h4
    unfold mapErrorMsg
    rw [if_neg (by simp [h1]), if_neg (by simp [h2]), if_neg (by simp [h3]), if_pos h4]
  · intro h1 h2 h3 h4
    unfold mapErrorMsg
    rw [if_neg (by simp [h1]), if_neg (by simp [h2]), if_neg (by simp [h3]),
      if_neg (by simp [h4])]
  · intro hne
    rcases run_shape env with ⟨m0, c, cmd, u, h⟩ | ⟨p, c, cmd, segs, hseg, h⟩ <;> rw [h]
    · exact ⟨m0, errorResult_stdout m0 c cmd u⟩
    · rw [h] at hne
      exact absurd rfl hne

/-- C7 witness: a missing-file message is mapped to the fixed
missing-or-corrupted text. -/
theorem C7_error_mapping_witness :
    mapErrorMsg "[Errno 2] No such file or directory" = "Audio file not found or corrupted." :=
  (C7_error_mapping "[Errno 2] No such file or directory" envLeak).2.2.1
    (by decide) (by decide) (by decide)

/-- C8: on a successful run the printed processing time is the wall-clock
duration of the transcription step rounded to two decimal places, and it
is nonnegative whenever the clock did not run backwards. -/
theorem C8_processing_time (env : Env) (h0 : (run env).exitCode = 0) :
    (∃ t f w, (run env).stdout =
      [JsonOut.success t f (pyRound2 (env.t1 - env.t0)) w]) ∧
    (env.t0 ≤ env.t1 → 0 ≤ pyRound2 (env.t1 - env.t0)) := by
  constructor
  · rcases run_shape env with ⟨m, c, cmd, u, h⟩ | ⟨p, c, cmd, segs, hseg, h⟩
    · rw [h] at h0
      exact absurd h0 Nat.one_ne_zero
    · rw [h, successResult_stdout]
      exact ⟨_, _, _, rfl⟩
  · intro hm
    exact pyRound2_nonneg _ (by linarith)

/-- C8 witness: on `envOk` the rounded duration is nonnegative. -/
theorem C8_processing_time_witness :
    0 ≤ pyRound2 (envOk.t1 - envOk.t0) :=
  (C8_processing_time envOk rfl).2 (le_refl envOk.t0)

/-- C9: the printed JSON and the exit status do not depend on the
question argument: replacing it by any other string leaves the whole
observable run result unchanged. -/
theorem C9_question_noninterference (env : Env) (q : String)
    (h : 3 ≤ env.argv.length) :
    run { env with argv := env.argv.set 2 q } = run env := by
  obtain ⟨a, ha⟩ : ∃ x, env.argv[1]? = some x := by
    rw [List.getElem?_eq_getElem (by omega : 1 < env.argv.length)]
    exact ⟨_, rfl⟩
  obtain ⟨q0, hq0⟩ : ∃ x, env.argv[2]? = some x := by
    rw [List.getElem?_eq_getElem (by omega : 2 < env.argv.length)]
    exact ⟨_, rfl⟩
  have ha' : (env.argv.set 2 q)[1]? = some a := by
    rw [List.getElem?_set_ne (by decide)]
    exact ha
  have hq' : (env.argv.set 2 q)[2]? = some q := by
    rw [List.getElem?_set_self (by omega)]
  rw [run_arg_some { env with argv := env.argv.set 2 q } a q ha' hq',
    run_arg_some env a q0 ha hq0]
  rfl

/-- C9 witness: replacing the question in the concrete successful run
changes nothing observable. -/
theorem C9_question_noninterference_witness :
    run { envOk with argv := envOk.argv.set 2 "another question" } = run envOk :=
  C9_question_noninterference envOk "another question" (by decide)

/-- C10: with fewer than two positional arguments the IndexError is
caught by the top-level handler, the generically-labeled error JSON is
printed with zero time and word count, and the process exits 1. -/
theorem C10_missing_args (env : Env) (h : env.argv.length < 3) :
    run env = errorResult "list index out of range" false none none ∧
    (run env).stdout =
      [JsonOut.failure "" "Error processing audio. Please try again."
        "Audio processing error: list index out of range" 0 0] ∧
    (run env).exitCode = 1 := by
  have hr := run_arg_none env h
  refine ⟨hr, ?_, ?_⟩ <;> rw [hr] <;> rfl

/-- C10 witness: an invocation with no positional arguments. -/
theorem C10_missing_args_witness : (run envNoArgs).exitCode = 1 :=
  (C10_missing_args envNoArgs (by decide)).2.2

end ProcessAnswer
